import Mathlib

/-!
Shallow embedding of the Activity Roster Service (`src/app.py`).

The service keeps an in-memory mapping from activity name to an activity
record and exposes four HTTP handlers: `root` (redirect), `get_activities`
(list), `signup_for_activity` and `unregister_from_activity`.  Python's
`dict` preserves insertion order and has unique keys, so the roster is
modelled as an association list `List (String × Activity)`; dictionary
lookup and in-place value assignment become `lookupActivity` and
`updateActivity` (both act on the first matching key).  A raised
`HTTPException` becomes an `Except.error` value paired with the unchanged
roster, since in the source every `raise` happens before any mutation.
-/

set_option maxRecDepth 8000

/-- One activity record, mirroring the dict values of `activities` in
`src/app.py`: description, schedule, max_participants, participants. -/
structure Activity where
  description : String
  schedule : String
  max_participants : Nat
  participants : List String
deriving DecidableEq, Repr

/-- The roster: insertion-ordered mapping from activity name to record. -/
abbrev Roster := List (String × Activity)

/-- Mirrors FastAPI's `HTTPException(status_code=..., detail=...)`. -/
structure HTTPException where
  status_code : Nat
  detail : String
deriving DecidableEq, Repr

/-- The seeded in-memory activity database of `src/app.py`. -/
def activities : Roster :=
  [ ("Chess Club",
      { description := "Learn strategies and compete in chess tournaments"
        schedule := "Fridays, 3:30 PM - 5:00 PM"
        max_participants := 12
        participants := ["michael@mergington.edu", "daniel@mergington.edu"] }),
    ("Programming Class",
      { description := "Learn programming fundamentals and build software projects"
        schedule := "Tuesdays and Thursdays, 3:30 PM - 4:30 PM"
        max_participants := 20
        participants := ["emma@mergington.edu", "sophia@mergington.edu"] }),
    ("Gym Class",
      { description := "Physical education and sports activities"
        schedule := "Mondays, Wednesdays, Fridays, 2:00 PM - 3:00 PM"
        max_participants := 30
        participants := ["john@mergington.edu", "olivia@mergington.edu"] }),
    ("Soccer Team",
      { description := "Join the school soccer team for practices and matches"
        schedule := "Tuesdays and Thursdays, 4:00 PM - 6:00 PM"
        max_participants := 22
        participants := ["alex@mergington.edu", "lisa@mergington.edu"] }),
    ("Basketball Club",
      { description := "Practice skills and play friendly games"
        schedule := "Wednesdays and Saturdays, 4:00 PM - 6:00 PM"
        max_participants := 15
        participants := ["mike@mergington.edu", "nina@mergington.edu"] }),
    ("Art Club",
      { description := "Explore drawing, painting, and mixed media projects"
        schedule := "Mondays, 3:30 PM - 5:30 PM"
        max_participants := 18
        participants := ["lucas@mergington.edu", "mia@mergington.edu"] }),
    ("Drama Club",
      { description := "Acting workshops and stage productions"
        schedule := "Wednesdays, 4:00 PM - 6:00 PM"
        max_participants := 25
        participants := ["ashley@mergington.edu", "ben@mergington.edu"] }),
    ("Debate Team",
      { description := "Learn argumentation, public speaking, and competitive debating"
        schedule := "Tuesdays, 5:00 PM - 7:00 PM"
        max_participants := 20
        participants := ["chris@mergington.edu", "taylor@mergington.edu"] }),
    ("Science Olympiad",
      { description := "Prepare for science competitions across multiple disciplines"
        schedule := "Fridays, 4:00 PM - 6:00 PM"
        max_participants := 16
        participants := ["oliver@mergington.edu", "sara@mergington.edu"] }) ]

/-- Dictionary lookup `activities[name]` (with `name in activities` being
`(lookupActivity acts name).isSome`): value at the first matching key. -/
def lookupActivity : Roster → String → Option Activity
  | [], _ => none
  | (k, v) :: t, name => if k = name then some v else lookupActivity t name

/-- In-place mutation of the record stored under `name` (Python mutates the
dict value object through the `activity` alias): replace the value at the
first matching key, keeping insertion order. -/
def updateActivity : Roster → String → Activity → Roster
  | [], _, _ => []
  | (k, v) :: t, name, a =>
      if k = name then (k, a) :: t else (k, v) :: updateActivity t name a

/-- `signup_for_activity` from `src/app.py`: 404 if the activity name is
unknown, 400 if the email is already a participant, otherwise append the
email and return the confirmation message.  The returned roster is the
post-call state (unchanged on error, since both raises precede the append). -/
def signup_for_activity (acts : Roster) (activity_name email : String) :
    Roster × Except HTTPException String :=
  match lookupActivity acts activity_name with
  | none => (acts, Except.error ⟨404, "Activity not found"⟩)
  | some activity =>
      if email ∈ activity.participants then
        (acts, Except.error ⟨400, "Student is already signed up"⟩)
      else
        (updateActivity acts activity_name
          { activity with participants := activity.participants ++ [email] },
         Except.ok ("Signed up " ++ email ++ " for " ++ activity_name))

/-- `unregister_from_activity` from `src/app.py`: 404 if the activity name
is unknown, 400 if the email is not a participant, otherwise remove the
first occurrence of the email (Python `list.remove`) and confirm. -/
def unregister_from_activity (acts : Roster) (activity_name email : String) :
    Roster × Except HTTPException String :=
  match lookupActivity acts activity_name with
  | none => (acts, Except.error ⟨404, "Activity not found"⟩)
  | some activity =>
      if email ∈ activity.participants then
        (updateActivity acts activity_name
          { activity with participants := activity.participants.erase email },
         Except.ok ("Unregistered " ++ email ++ " from " ++ activity_name))
      else
        (acts, Except.error ⟨400, "Student is not signed up for this activity"⟩)

/-- `get_activities` from `src/app.py`: returns the whole mapping and does
not touch the state. -/
def get_activities (acts : Roster) : Roster × Roster := (acts, acts)

/-- `root` from `src/app.py`: unconditional redirect to the static landing
page; the state is untouched. -/
def root (acts : Roster) : Roster × String := (acts, "/static/index.html")

/-- One API call, for reasoning about sequences of requests. -/
inductive Op where
  | signup (activity_name email : String)
  | unregister (activity_name email : String)
  | getActivities
  | rootRedirect
deriving DecidableEq, Repr

/-- State transition of a single API call. -/
def applyOp (acts : Roster) : Op → Roster
  | Op.signup n e => (signup_for_activity acts n e).1
  | Op.unregister n e => (unregister_from_activity acts n e).1
  | Op.getActivities => (get_activities acts).1
  | Op.rootRedirect => (root acts).1

/-- State after a sequence of API calls. -/
def applyOps (acts : Roster) (ops : List Op) : Roster := ops.foldl applyOp acts

/-- Every activity record in the roster has duplicate-free participants. -/
def NoDupRoster (acts : Roster) : Prop :=
  ∀ p ∈ acts, p.2.participants.Nodup

instance (acts : Roster) : Decidable (NoDupRoster acts) :=
  List.decidableBAll _ acts

/-- A small concrete roster used to instantiate the theorems, taken from
the "Math Club" example of the specification. -/
def demoRoster : Roster :=
  [ ("Math Club",
      { description := "Math practice and competitions"
        schedule := "Thursdays, 3:30 PM - 4:30 PM"
        max_participants := 2
        participants := ["alice@mergington.edu"] }),
    ("Knitting Club",
      { description := "Knitting and crochet projects"
        schedule := "Tuesdays, 3:30 PM - 4:30 PM"
        max_participants := 1
        participants := ["carol@mergington.edu"] }) ]

/-- The record stored under "Math Club" in `demoRoster`. -/
def mathClub : Activity :=
  { description := "Math practice and competitions"
    schedule := "Thursdays, 3:30 PM - 4:30 PM"
    max_participants := 2
    participants := ["alice@mergington.edu"] }

/-- The record stored under "Knitting Club" in `demoRoster`; it is already
at capacity (1 participant, max_participants = 1). -/
def knittingClub : Activity :=
  { description := "Knitting and crochet projects"
    schedule := "Tuesdays, 3:30 PM - 4:30 PM"
    max_participants := 1
    participants := ["carol@mergington.edu"] }

/-! ## Helper lemmas about `lookupActivity` and `updateActivity` -/

/-- Updating a present key makes lookup of that key return the new value. -/
theorem lookupActivity_updateActivity_self {acts : Roster} {name : String} {v : Activity}
    (h : lookupActivity acts name = some v) (a : Activity) :
    lookupActivity (updateActivity acts name a) name = some a := by
  induction acts with
  | nil => simp [lookupActivity] at h
  | cons p t ih =>
      obtain ⟨k, w⟩ := p
      by_cases hk : k = name
      · simp [lookupActivity, updateActivity, hk]
      · simp only [lookupActivity, hk, if_false, if_neg hk] at h
        simp [lookupActivity, updateActivity, hk]
        exact ih h

/-- Updating one key leaves lookup of every other key unchanged. -/
theorem lookupActivity_updateActivity_ne (acts : Roster) {name other : String}
    (hne : other ≠ name) (a : Activity) :
    lookupActivity (updateActivity acts name a) other = lookupActivity acts other := by
  induction acts with
  | nil => simp [updateActivity]
  | cons p t ih =>
      obtain ⟨k, w⟩ := p
      by_cases hk : k = name
      · subst hk
        have h2 : k ≠ other := fun h => hne h.symm
        simp [updateActivity, lookupActivity, h2]
      · by_cases hk' : k = other
        · subst hk'
          simp [updateActivity, lookupActivity, hk, hne]
        · simp [updateActivity, lookupActivity, hk, hk']
          exact ih

/-- Two successive updates of the same key collapse to the last one. -/
theorem updateActivity_updateActivity (acts : Roster) (name : String) (a b : Activity) :
    updateActivity (updateActivity acts name a) name b = updateActivity acts name b := by
  induction acts with
  | nil => simp [updateActivity]
  | cons p t ih =>
      obtain ⟨k, w⟩ := p
      by_cases hk : k = name
      · simp [updateActivity, hk]
      · simp [updateActivity, hk, ih]

/-- Writing back the value already stored under a key is a no-op. -/
theorem updateActivity_self {acts : Roster} {name : String} {a : Activity}
    (h : lookupActivity acts name = some a) : updateActivity acts name a = acts := by
  induction acts with
  | nil => simp [updateActivity]
  | cons p t ih =>
      obtain ⟨k, w⟩ := p
      by_cases hk : k = name
      · simp only [lookupActivity, if_pos hk, Option.some.injEq] at h
        simp [updateActivity, hk, h]
      · simp only [lookupActivity, if_neg hk] at h
        simp [updateActivity, hk, ih h]

/-- Every entry of an updated roster is an old entry or carries the new value. -/
theorem mem_updateActivity {acts : Roster} {name : String} {a : Activity}
    {p : String × Activity} (h : p ∈ updateActivity acts name a) :
    p ∈ acts ∨ p.2 = a := by
  induction acts with
  | nil => simp [updateActivity] at h
  | cons q t ih =>
      obtain ⟨k, w⟩ := q
      by_cases hk : k = name
      · simp only [updateActivity, if_pos hk, List.mem_cons] at h
        rcases h with h | h
        · right; rw [h]
        · left; exact List.mem_cons_of_mem _ h
      · simp only [updateActivity, if_neg hk, List.mem_cons] at h
        rcases h with h | h
        · left; rw [h]; exact List.mem_cons_self _ _
        · rcases ih h with h1 | h1
          · left; exact List.mem_cons_of_mem _ h1
          · right; exact h1

/-- A successful lookup yields a value stored in the roster. -/
theorem lookupActivity_mem {acts : Roster} {name : String} {a : Activity}
    (h : lookupActivity acts name = some a) : ∃ k, (k, a) ∈ acts := by
  induction acts with
  | nil => simp [lookupActivity] at h
  | cons q t ih =>
      obtain ⟨k, w⟩ := q
      by_cases hk : k = name
      · simp only [lookupActivity, if_pos hk, Option.some.injEq] at h
        subst h
        exact ⟨k, List.mem_cons_self _ _⟩
      · simp only [lookupActivity, if_neg hk] at h
        obtain ⟨k', hk'⟩ := ih h
        exact ⟨k', List.mem_cons_of_mem _ hk'⟩

/-- Erasing a freshly appended element recovers the original list. -/
theorem erase_append_singleton {l : List String} {e : String} (h : e ∉ l) :
    (l ++ [e]).erase e = l := by
  rw [List.erase_append_right _ h]
  simp

/-- Appending a fresh element preserves the no-duplicates property. -/
theorem nodup_append_singleton {l : List String} {e : String}
    (hn : l.Nodup) (h : e ∉ l) : (l ++ [e]).Nodup := by
  rw [List.nodup_append]
  refine ⟨hn, List.nodup_singleton e, ?_⟩
  intro x hx hx'
  simp only [List.mem_singleton] at hx'
  subst hx'
  exact h hx

/-- A single API call preserves the no-duplicates property of the roster. -/
theorem nodup_applyOp {acts : Roster} (h : NoDupRoster acts) (op : Op) :
    NoDupRoster (applyOp acts op) := by
  cases op with
  | getActivities => exact h
  | rootRedirect => exact h
  | signup n e =>
      rcases hl : lookupActivity acts n with _ | a
      · simpa [applyOp, signup_for_activity, hl] using h
      · by_cases he : e ∈ a.participants
        · simpa [applyOp, signup_for_activity, hl, he] using h
        · intro p hp
          have hp' : p ∈ updateActivity acts n
              { a with participants := a.participants ++ [e] } := by
            simpa [applyOp, signup_for_activity, hl, he] using hp
          rcases mem_updateActivity hp' with h1 | h1
          · exact h p h1
          · rw [h1]
            have hna : a.participants.Nodup := by
              obtain ⟨k, hk⟩ := lookupActivity_mem hl
              exact h (k, a) hk
            exact nodup_append_singleton hna he
  | unregister n e =>
      rcases hl : lookupActivity acts n with _ | a
      · simpa [applyOp, unregister_from_activity, hl] using h
      · by_cases he : e ∈ a.participants
        · intro p hp
          have hp' : p ∈ updateActivity acts n
              { a with participants := a.participants.erase e } := by
            simpa [applyOp, unregister_from_activity, hl, he] using hp
          rcases mem_updateActivity hp' with h1 | h1
          · exact h p h1
          · rw [h1]
            have hna : a.participants.Nodup := by
              obtain ⟨k, hk⟩ := lookupActivity_mem hl
              exact h (k, a) hk
            exact List.Nodup.sublist (List.erase_sublist _ _) hna
        · simpa [applyOp, unregister_from_activity, hl, he] using h

/-! ## Claim theorems -/

/-- Claim C1: for every roster state, activity name present in the roster,
and email not in that activity's participant sequence, signup succeeds,
appends the email to the end of the participant sequence (so afterwards the
email appears exactly once and all previously present participants are
retained in order), and returns the message "Signed up {email} for {name}". -/
theorem signup_fresh_email_appends (acts : Roster) (name email : String)
    (a : Activity) (hl : lookupActivity acts name = some a)
    (he : email ∉ a.participants) :
    signup_for_activity acts name email =
      (updateActivity acts name { a with participants := a.participants ++ [email] },
       Except.ok ("Signed up " ++ email ++ " for " ++ name)) ∧
    lookupActivity (signup_for_activity acts name email).1 name =
      some { a with participants := a.participants ++ [email] } ∧
    (a.participants ++ [email]).count email = 1 := by
  refine ⟨by simp [signup_for_activity, hl, he], ?_, ?_⟩
  · have h1 : (signup_for_activity acts name email).1 =
        updateActivity acts name { a with participants := a.participants ++ [email] } := by
      simp [signup_for_activity, hl, he]
    rw [h1]
    exact lookupActivity_updateActivity_self hl _
  · rw [List.count_append, List.count_eq_zero.mpr he]
    simp

/-- Instantiation of C1 on the demo roster: signing "bob@mergington.edu"
up for "Math Club". -/
theorem signup_fresh_email_appends_witness :
    signup_for_activity demoRoster "Math Club" "bob@mergington.edu" =
      (updateActivity demoRoster "Math Club"
        { mathClub with participants := mathClub.participants ++ ["bob@mergington.edu"] },
       Except.ok ("Signed up " ++ "bob@mergington.edu" ++ " for " ++ "Math Club")) ∧
    lookupActivity (signup_for_activity demoRoster "Math Club" "bob@mergington.edu").1
        "Math Club" =
      some { mathClub with participants := mathClub.participants ++ ["bob@mergington.edu"] } ∧
    (mathClub.participants ++ ["bob@mergington.edu"]).count "bob@mergington.edu" = 1 :=
  signup_fresh_email_appends demoRoster "Math Club" "bob@mergington.edu" mathClub
    (by decide) (by decide)

/-- Claim C2: signup fails exactly when its precondition is violated, with
the specified error kind: 404 "Activity not found" iff the name is absent,
400 "Student is already signed up" iff the name is present but the email is
already a participant, and it succeeds in every other case. -/
theorem signup_error_characterization (acts : Roster) (name email : String) :
    ((signup_for_activity acts name email).2 =
        Except.error ⟨404, "Activity not found"⟩ ↔
      lookupActivity acts name = none) ∧
    ((signup_for_activity acts name email).2 =
        Except.error ⟨400, "Student is already signed up"⟩ ↔
      ∃ a, lookupActivity acts name = some a ∧ email ∈ a.participants) ∧
    ((∃ m, (signup_for_activity acts name email).2 = Except.ok m) ↔
      ∃ a, lookupActivity acts name = some a ∧ email ∉ a.participants) := by
  rcases hl : lookupActivity acts name with _ | a
  · simp [signup_for_activity, hl]
  · by_cases he : email ∈ a.participants
    · simp [signup_for_activity, hl, he]
    · simp [signup_for_activity, hl, he]

/-- Claim C3: unregister succeeds for a present name and present email,
removing exactly the first occurrence of that email while preserving the
relative order of the remaining entries, with the message
"Unregistered {email} from {name}"; it fails with 404 "Activity not found"
when the name is absent and with 400 "Student is not signed up for this
activity" when the email is not a participant. -/
theorem unregister_characterization (acts : Roster) (name email : String) :
    (lookupActivity acts name = none →
      unregister_from_activity acts name email =
        (acts, Except.error ⟨404, "Activity not found"⟩)) ∧
    (∀ a, lookupActivity acts name = some a → email ∉ a.participants →
      unregister_from_activity acts name email =
        (acts, Except.error ⟨400, "Student is not signed up for this activity"⟩)) ∧
    (∀ a, lookupActivity acts name = some a → email ∈ a.participants →
      ∃ l₁ l₂, email ∉ l₁ ∧ a.participants = l₁ ++ email :: l₂ ∧
        unregister_from_activity acts name email =
          (updateActivity acts name { a with participants := l₁ ++ l₂ },
           Except.ok ("Unregistered " ++ email ++ " from " ++ name))) := by
  refine ⟨?_, ?_, ?_⟩
  · intro hl
    simp [unregister_from_activity, hl]
  · intro a hl he
    simp [unregister_from_activity, hl, he]
  · intro a hl he
    obtain ⟨l₁, l₂, h1, h2, h3⟩ := List.exists_erase_eq he
    exact ⟨l₁, l₂, h1, h2, by simp [unregister_from_activity, hl, he, h3]⟩

/-- Instantiation of C3 on the demo roster: unregistering the present
participant "alice@mergington.edu" from "Math Club". -/
theorem unregister_characterization_witness :
    ∃ l₁ l₂, "alice@mergington.edu" ∉ l₁ ∧
      mathClub.participants = l₁ ++ "alice@mergington.edu" :: l₂ ∧
      unregister_from_activity demoRoster "Math Club" "alice@mergington.edu" =
        (updateActivity demoRoster "Math Club" { mathClub with participants := l₁ ++ l₂ },
         Except.ok ("Unregistered " ++ "alice@mergington.edu" ++ " from " ++ "Math Club")) :=
  (unregister_characterization demoRoster "Math Club" "alice@mergington.edu").2.2
    mathClub (by decide) (by decide)

/-- Claim C4: capacity is never enforced at signup: for a present activity
and a fresh email, signup succeeds and appends even when the participant
count already reaches max_participants, and every signup error is one of
the two kinds 404 "Activity not found" and 400 "Student is already signed
up" (no capacity-exceeded kind exists). -/
theorem signup_ignores_capacity (acts : Roster) (name email : String)
    (a : Activity) (hl : lookupActivity acts name = some a)
    (he : email ∉ a.participants)
    (_hfull : a.max_participants ≤ a.participants.length) :
    (signup_for_activity acts name email).2 =
      Except.ok ("Signed up " ++ email ++ " for " ++ name) ∧
    lookupActivity (signup_for_activity acts name email).1 name =
      some { a with participants := a.participants ++ [email] } ∧
    (∀ (acts' : Roster) (name' email' : String) (err : HTTPException),
      (signup_for_activity acts' name' email').2 = Except.error err →
      err = ⟨404, "Activity not found"⟩ ∨
      err = ⟨400, "Student is already signed up"⟩) := by
  refine ⟨by simp [signup_for_activity, hl, he], ?_, ?_⟩
  · have h1 : (signup_for_activity acts name email).1 =
        updateActivity acts name { a with participants := a.participants ++ [email] } := by
      simp [signup_for_activity, hl, he]
    rw [h1]
    exact lookupActivity_updateActivity_self hl _
  · intro acts' name' email' err herr
    rcases hl' : lookupActivity acts' name' with _ | a'
    · simp [signup_for_activity, hl'] at herr
      left
      rw [herr]
    · by_cases he' : email' ∈ a'.participants
      · simp [signup_for_activity, hl', he'] at herr
        right
        rw [herr]
      · simp [signup_for_activity, hl', he'] at herr

/-- Instantiation of C4 on the demo roster: "Knitting Club" is already at
capacity (1 of 1), yet the signup of "dana@mergington.edu" succeeds. -/
theorem signup_ignores_capacity_witness :
    (signup_for_activity demoRoster "Knitting Club" "dana@mergington.edu").2 =
      Except.ok ("Signed up " ++ "dana@mergington.edu" ++ " for " ++ "Knitting Club") ∧
    lookupActivity
        (signup_for_activity demoRoster "Knitting Club" "dana@mergington.edu").1
        "Knitting Club" =
      some { knittingClub with
              participants := knittingClub.participants ++ ["dana@mergington.edu"] } ∧
    (∀ (acts' : Roster) (name' email' : String) (err : HTTPException),
      (signup_for_activity acts' name' email').2 = Except.error err →
      err = ⟨404, "Activity not found"⟩ ∨
      err = ⟨400, "Student is already signed up"⟩) :=
  signup_ignores_capacity demoRoster "Knitting Club" "dana@mergington.edu" knittingClub
    (by decide) (by decide) (by decide)

/-- Claim C5: signup of a fresh email followed by unregister of the same
email from the same activity restores the whole roster to its pre-signup
value. -/
theorem signup_unregister_roundtrip (acts : Roster) (name email : String)
    (a : Activity) (hl : lookupActivity acts name = some a)
    (he : email ∉ a.participants) :
    (unregister_from_activity (signup_for_activity acts name email).1 name email).1 =
      acts := by
  have h1 : (signup_for_activity acts name email).1 =
      updateActivity acts name { a with participants := a.participants ++ [email] } := by
    simp [signup_for_activity, hl, he]
  have h2 := lookupActivity_updateActivity_self hl
      { a with participants := a.participants ++ [email] }
  have hmem : email ∈ a.participants ++ [email] := by simp
  have h3 : (a.participants ++ [email]).erase email = a.participants :=
    erase_append_singleton he
  rw [h1]
  simp only [unregister_from_activity, h2, hmem, if_true, if_pos]
  rw [show ({ a with participants := (a.participants ++ [email]).erase email } : Activity)
        = a by rw [h3]]
  rw [updateActivity_updateActivity, updateActivity_self hl]

/-- Instantiation of C5 on the demo roster: signing "bob@mergington.edu"
up for "Math Club" and unregistering again restores the roster. -/
theorem signup_unregister_roundtrip_witness :
    (unregister_from_activity
        (signup_for_activity demoRoster "Math Club" "bob@mergington.edu").1
        "Math Club" "bob@mergington.edu").1 = demoRoster :=
  signup_unregister_roundtrip demoRoster "Math Club" "bob@mergington.edu" mathClub
    (by decide) (by decide)

/-- Claim C6: whenever signup or unregister returns an error, the whole
roster is left unchanged; in particular signing up an already-present email
returns 400 "Student is already signed up" with the roster untouched. -/
theorem mutation_error_atomicity (acts : Roster) (name email : String) :
    (∀ e, (signup_for_activity acts name email).2 = Except.error e →
      (signup_for_activity acts name email).1 = acts) ∧
    (∀ e, (unregister_from_activity acts name email).2 = Except.error e →
      (unregister_from_activity acts name email).1 = acts) ∧
    (∀ a, lookupActivity acts name = some a → email ∈ a.participants →
      signup_for_activity acts name email =
        (acts, Except.error ⟨400, "Student is already signed up"⟩)) := by
  rcases hl : lookupActivity acts name with _ | a
  · simp [signup_for_activity, unregister_from_activity, hl]
  · by_cases he : email ∈ a.participants
    · simp [signup_for_activity, unregister_from_activity, hl, he]
    · simp [signup_for_activity, unregister_from_activity, hl, he]

/-- Instantiation of C6 on the demo roster: re-signing the already-present
"alice@mergington.edu" up for "Math Club" errors and changes nothing. -/
theorem mutation_error_atomicity_witness :
    signup_for_activity demoRoster "Math Club" "alice@mergington.edu" =
      (demoRoster, Except.error ⟨400, "Student is already signed up"⟩) :=
  (mutation_error_atomicity demoRoster "Math Club" "alice@mergington.edu").2.2
    mathClub (by decide) (by decide)

/-- Claim C7: the seeded roster has duplicate-free participant sequences,
and the no-duplicates property is preserved by every sequence of API calls
starting from any state satisfying it. -/
theorem nodup_invariant :
    NoDupRoster activities ∧
    ∀ (acts : Roster) (ops : List Op),
      NoDupRoster acts → NoDupRoster (applyOps acts ops) := by
  constructor
  · decide
  · intro acts ops
    induction ops generalizing acts with
    | nil => exact fun h => h
    | cons op t ih =>
        intro h
        exact ih (applyOp acts op) (nodup_applyOp h op)

/-- Instantiation of C7: the seeded roster still has duplicate-free
participant sequences after a concrete signup/unregister sequence. -/
theorem nodup_invariant_witness :
    NoDupRoster (applyOps activities
      [Op.signup "Chess Club" "zoe@mergington.edu",
       Op.getActivities,
       Op.unregister "Chess Club" "michael@mergington.edu"]) :=
  nodup_invariant.2 activities
    [Op.signup "Chess Club" "zoe@mergington.edu",
     Op.getActivities,
     Op.unregister "Chess Club" "michael@mergington.edu"]
    (by decide)

/-- Claim C8: list-activities always succeeds and returns the full roster
mapping unchanged; every present name is mapped to exactly its stored
description, schedule, max_participants and participants fields, in the
backing store's insertion order. -/
theorem get_activities_returns_roster (acts : Roster) :
    get_activities acts = (acts, acts) ∧
    (∀ name, lookupActivity (get_activities acts).2 name = lookupActivity acts name) ∧
    (∀ name a, lookupActivity acts name = some a →
      lookupActivity (get_activities acts).2 name =
        some { description := a.description, schedule := a.schedule,
               max_participants := a.max_participants,
               participants := a.participants }) :=
  ⟨rfl, fun _ => rfl, fun _ _ h => h⟩

/-- Instantiation of C8 on the demo roster: the listing maps "Math Club"
to exactly its stored record. -/
theorem get_activities_returns_roster_witness :
    lookupActivity (get_activities demoRoster).2 "Math Club" = some mathClub :=
  (get_activities_returns_roster demoRoster).2.2 "Math Club" mathClub (by decide)

/-- Claim C9: a successful signup or unregister for activity `name` and an
email modifies only the participants field of that activity: its
description, schedule and max_participants are kept, and lookup of every
other name is unchanged. -/
theorem mutation_frame (acts : Roster) (name email : String) (a : Activity)
    (hl : lookupActivity acts name = some a) :
    (email ∉ a.participants →
      (∃ a', lookupActivity (signup_for_activity acts name email).1 name = some a' ∧
        a'.description = a.description ∧ a'.schedule = a.schedule ∧
        a'.max_participants = a.max_participants) ∧
      (∀ other, other ≠ name →
        lookupActivity (signup_for_activity acts name email).1 other =
          lookupActivity acts other)) ∧
    (email ∈ a.participants →
      (∃ a', lookupActivity (unregister_from_activity acts name email).1 name = some a' ∧
        a'.description = a.description ∧ a'.schedule = a.schedule ∧
        a'.max_participants = a.max_participants) ∧
      (∀ other, other ≠ name →
        lookupActivity (unregister_from_activity acts name email).1 other =
          lookupActivity acts other)) := by
  constructor
  · intro he
    have h1 : (signup_for_activity acts name email).1 =
        updateActivity acts name { a with participants := a.participants ++ [email] } := by
      simp [signup_for_activity, hl, he]
    rw [h1]
    exact ⟨⟨_, lookupActivity_updateActivity_self hl _, rfl, rfl, rfl⟩,
      fun other hne => lookupActivity_updateActivity_ne acts hne _⟩
  · intro he
    have h1 : (unregister_from_activity acts name email).1 =
        updateActivity acts name { a with participants := a.participants.erase email } := by
      simp [unregister_from_activity, hl, he]
    rw [h1]
    exact ⟨⟨_, lookupActivity_updateActivity_self hl _, rfl, rfl, rfl⟩,
      fun other hne => lookupActivity_updateActivity_ne acts hne _⟩

/-- Instantiation of C9 on the demo roster: signing "bob@mergington.edu"
up for "Math Club" keeps Math Club's other fields and leaves the
"Knitting Club" entry untouched. -/
theorem mutation_frame_witness :
    (∃ a', lookupActivity
        (signup_for_activity demoRoster "Math Club" "bob@mergington.edu").1
        "Math Club" = some a' ∧
      a'.description = mathClub.description ∧ a'.schedule = mathClub.schedule ∧
      a'.max_participants = mathClub.max_participants) ∧
    lookupActivity (signup_for_activity demoRoster "Math Club" "bob@mergington.edu").1
        "Knitting Club" =
      lookupActivity demoRoster "Knitting Club" :=
  ⟨((mutation_frame demoRoster "Math Club" "bob@mergington.edu" mathClub
      (by decide)).1 (by decide)).1,
   ((mutation_frame demoRoster "Math Club" "bob@mergington.edu" mathClub
      (by decide)).1 (by decide)).2 "Knitting Club" (by decide)⟩

/-- Claim C10: the read operations are pure: a single list-activities or
root-redirect call returns the roster unchanged, and any sequence of such
calls leaves the state exactly where it started. -/
theorem reads_pure (acts : Roster) (ops : List Op) :
    (get_activities acts).1 = acts ∧ (root acts).1 = acts ∧
    ((∀ op ∈ ops, op = Op.getActivities ∨ op = Op.rootRedirect) →
      applyOps acts ops = acts) := by
  refine ⟨rfl, rfl, ?_⟩
  induction ops generalizing acts with
  | nil => exact fun _ => rfl
  | cons op t ih =>
      intro h
      have hstep : applyOp acts op = acts := by
        rcases h op (List.mem_cons_self _ _) with h1 | h1 <;> subst h1 <;> rfl
      show applyOps (applyOp acts op) t = acts
      rw [hstep]
      exact ih acts (fun o ho => h o (List.mem_cons_of_mem _ ho))

/-- Instantiation of C10 on the demo roster: a concrete sequence of read
calls leaves the roster unchanged. -/
theorem reads_pure_witness :
    applyOps demoRoster [Op.getActivities, Op.rootRedirect, Op.getActivities] =
      demoRoster :=
  (reads_pure demoRoster
      [Op.getActivities, Op.rootRedirect, Op.getActivities]).2.2 (by decide)
